import Mathlib

/-!
Shallow embedding of the repository `plot_ensemble_oob.ipynb`, which holds two
notebooks.

Notebook 1 (the OOB sweep): generates a synthetic binary classification dataset
with `make_classification(n_samples=500, n_features=25, n_clusters_per_class=1,
n_informative=15, random_state=RANDOM_STATE)`, builds three
`RandomForestClassifier` configurations (`max_features` equal to `sqrt`, `log2`
and `None`, each with `warm_start=True`, `oob_score=True`,
`random_state=RANDOM_STATE`), and for each one sweeps `n_estimators` over
`range(15, 176)`, refitting and appending `(i, 1 - clf.oob_score_)` to
`error_rate[label]`, then plots the three series.

Notebook 2 (the balance-scale comparison): reads the balance-scale CSV,
binarizes the `balance` column (`1 if b=='B' else 0`), splits majority and
minority classes, upsamples the minority with
`resample(..., replace=True, n_samples=576, random_state=123)`, concatenates,
and fits a `LogisticRegression` on the upsampled data and an `SVC` and a
`RandomForestClassifier` on the original binarized data, printing accuracy and
AUROC metrics.

The statistical library internals (tree fitting, PRNG streams) are abstracted
as pure oracle parameters; everything authored by the notebooks themselves is
embedded directly.
-/

/-- Fixed seed `RANDOM_STATE = 123` used throughout the OOB notebook. -/
def RANDOM_STATE : Nat := 123

/-- An in-memory dataset handle as produced by the library; its internal layout
is irrelevant to the notebook logic, so it is kept abstract as a plain value. -/
def Dataset : Type := Nat

/-- Constructor arguments of `make_classification` as passed in the notebook. -/
structure MakeClassificationParams where
  n_samples : Nat
  n_features : Nat
  n_clusters_per_class : Nat
  n_informative : Nat
  random_state : Option Nat
deriving DecidableEq

/-- The actual argument tuple of the `make_classification` call:
`n_samples=500, n_features=25, n_clusters_per_class=1, n_informative=15,
random_state=RANDOM_STATE`. -/
def mcParams : MakeClassificationParams :=
  ⟨500, 25, 1, 15, some RANDOM_STATE⟩

/-- The seed a library component actually consumes: its `random_state` argument
when one is supplied, otherwise fresh run entropy from the environment. -/
def seedOf (random_state : Option Nat) (entropy : Nat) : Nat :=
  random_state.getD entropy

/-- The library call `make_classification(...)`: a pure function of the seed it
consumes. `synthData` abstracts the library's PRNG-driven generator. -/
def make_classification (synthData : Nat → Dataset) (p : MakeClassificationParams)
    (entropy : Nat) : Dataset :=
  synthData (seedOf p.random_state entropy)

/-- Constructor arguments of `RandomForestClassifier` as used in the OOB
notebook. `max_features` is `none` for Python `None`. -/
structure RFConfig where
  warm_start : Bool
  oob_score : Bool
  max_features : Option String
  random_state : Option Nat
deriving DecidableEq

/-- The list `ensemble_clfs` of the three labelled configurations (labels kept
verbatim up to the inner quotes around the `max_features` value). -/
def ensemble_clfs : List (String × RFConfig) :=
  [("RandomForestClassifier, max_features=sqrt",
     ⟨true, true, some "sqrt", some RANDOM_STATE⟩),
   ("RandomForestClassifier, max_features=log2",
     ⟨true, true, some "log2", some RANDOM_STATE⟩),
   ("RandomForestClassifier, max_features=None",
     ⟨true, true, none, some RANDOM_STATE⟩)]

/-- Lower end of the swept range: `min_estimators = 15`. -/
def min_estimators : Nat := 15

/-- Upper end of the swept range: `max_estimators = 175`. -/
def max_estimators : Nat := 175

/-- Abstract model of the fitted forest's out-of-bag bookkeeping: given the
seed it consumed, the training data, the `max_features` setting and the current
`n_estimators`, whether the OOB prediction for training sample `j` is correct.
A scikit-learn estimator is a pure function of these once the seed is fixed. -/
def TreeLib : Type :=
  Nat → Dataset → Option String → Nat → Nat → Bool

/-- OOB prediction correctness of the forest `clf` fitted on `data`, at
ensemble size `i`, for sample `j`. -/
def rfOOBCorrect (tree : TreeLib) (clf : RFConfig) (data : Dataset)
    (entropy : Nat) (i : Nat) (j : Nat) : Bool :=
  tree (seedOf clf.random_state entropy) data clf.max_features i j

/-- The attribute `clf.oob_score_` after fitting with `n_estimators = i`: the
fraction of the `n_samples` training points whose out-of-bag prediction is
correct. -/
def oob_score (correct : Nat → Nat → Bool) (i : Nat) : ℚ :=
  ((List.range mcParams.n_samples).countP (fun j => correct i j) : ℚ) /
    (mcParams.n_samples : ℚ)

/-- The inner sweep of the OOB notebook, for one classifier:
`for i in range(min_estimators, max_estimators + 1):` set `n_estimators=i`,
fit, and append `(i, 1 - clf.oob_score_)` to the series, as a left fold that
appends one pair per iteration. -/
def sweepLoop (score : Nat → ℚ) : List (Nat × ℚ) :=
  (List.range' min_estimators (max_estimators + 1 - min_estimators)).foldl
    (fun acc i => acc ++ [(i, 1 - score i)]) []

/-- The contents of `error_rate` after the sweep: for each labelled
configuration, its `(n_estimators, OOB error)` series. -/
def error_rate (synthData : Nat → Dataset) (tree : TreeLib) (entropy : Nat) :
    List (String × List (Nat × ℚ)) :=
  ensemble_clfs.map (fun lc =>
    (lc.1, sweepLoop (oob_score
      (rfOOBCorrect tree lc.2 (make_classification synthData mcParams entropy)
        entropy))))

theorem foldl_append_eq_map {α β : Type} (f : α → β) (l : List α)
    (acc : List β) :
    l.foldl (fun a i => a ++ [f i]) acc = acc ++ l.map f := by
  induction l generalizing acc with
  | nil => simp
  | cons x xs ih => simp [ih]

theorem sweepLoop_eq_map (score : Nat → ℚ) :
    sweepLoop score =
      (List.range' min_estimators (max_estimators + 1 - min_estimators)).map
        (fun i => (i, 1 - score i)) := by
  unfold sweepLoop
  rw [foldl_append_eq_map]
  simp

/-- Claim C1: for each of the three random-forest configurations, the sweep
visits every integer `n_estimators` value from 15 to 175 inclusive and, in that
order, appends the pair `(i, 1 - oob_score_)` to that configuration's series in
`error_rate`; furthermore the three configurations are exactly
`max_features = sqrt`, `log2` and `None`. -/
theorem sweep_appends_error_for_every_size (synthData : Nat → Dataset)
    (tree : TreeLib) (entropy : Nat) :
    error_rate synthData tree entropy =
      ensemble_clfs.map (fun lc =>
        (lc.1,
          (List.range' min_estimators (max_estimators + 1 - min_estimators)).map
            (fun i => (i, 1 - oob_score
              (rfOOBCorrect tree lc.2
                (make_classification synthData mcParams entropy) entropy) i)))) ∧
    (∀ i : Nat,
      i ∈ List.range' min_estimators (max_estimators + 1 - min_estimators) ↔
        min_estimators ≤ i ∧ i ≤ max_estimators) ∧
    ensemble_clfs.map (fun lc => lc.2.max_features) =
      [some "sqrt", some "log2", none] := by
  refine ⟨?_, ?_, rfl⟩
  · simp only [error_rate, sweepLoop_eq_map]
  · intro i
    rw [List.mem_range'_1]
    simp only [min_estimators, max_estimators]
    omega

/-- Claim C8: the OOB notebook is deterministic. Every source of randomness in
it (the synthetic dataset generation and the three forests) is given
`random_state = RANDOM_STATE = 123`, so the run's `error_rate` contents do not
depend on the run's entropy: two runs agree exactly. -/
theorem oob_notebook_deterministic (synthData : Nat → Dataset) (tree : TreeLib)
    (e1 e2 : Nat) :
    error_rate synthData tree e1 = error_rate synthData tree e2 ∧
    mcParams.random_state = some RANDOM_STATE ∧
    (ensemble_clfs.all (fun lc => lc.2.random_state == some RANDOM_STATE))
      = true := by
  refine ⟨?_, rfl, by decide⟩
  have happ : ∀ (tree : TreeLib) (clf : RFConfig) (data : Dataset) (e : Nat),
      rfOOBCorrect tree clf data e =
        tree (seedOf clf.random_state e) data clf.max_features :=
    fun _ _ _ _ => rfl
  simp only [error_rate, ensemble_clfs, List.map_cons, List.map_nil,
    make_classification, happ, seedOf, mcParams, Option.getD_some]

theorem oob_score_bounds (correct : Nat → Nat → Bool) (i : Nat) :
    0 ≤ oob_score correct i ∧ oob_score correct i ≤ 1 := by
  unfold oob_score
  constructor
  · positivity
  · rw [div_le_one (by norm_num [mcParams])]
    have h : (List.range mcParams.n_samples).countP (fun j => correct i j) ≤
        mcParams.n_samples := by
      have := List.countP_le_length (fun j => correct i j)
        (l := List.range mcParams.n_samples)
      simpa using this
    exact_mod_cast h

/-- Claim C9: each of the three series of `error_rate` holds exactly 161 pairs,
their first components are the integers 15 through 175 in strictly increasing
order, and every recorded OOB error `1 - oob_score_` lies in `[0, 1]`. -/
theorem error_series_shape (synthData : Nat → Dataset) (tree : TreeLib)
    (entropy : Nat) (label : String) (clf : RFConfig)
    (h : (label, clf) ∈ ensemble_clfs) :
    ∃ series : List (Nat × ℚ),
      (label, series) ∈ error_rate synthData tree entropy ∧
      series.length = 161 ∧
      series.map Prod.fst = List.range' 15 161 ∧
      List.Pairwise (fun a b => a < b) (series.map Prod.fst) ∧
      ∀ p ∈ series, 0 ≤ p.2 ∧ p.2 ≤ 1 := by
  refine ⟨sweepLoop (oob_score (rfOOBCorrect tree clf
    (make_classification synthData mcParams entropy) entropy)), ?_, ?_, ?_, ?_, ?_⟩
  · exact List.mem_map.mpr ⟨(label, clf), h, rfl⟩
  · rw [sweepLoop_eq_map]
    simp [min_estimators, max_estimators]
  · rw [sweepLoop_eq_map]
    simp only [List.map_map]
    show List.map (fun i => i)
      (List.range' min_estimators (max_estimators + 1 - min_estimators)) = _
    simp [min_estimators, max_estimators]
  · rw [sweepLoop_eq_map]
    simp only [List.map_map]
    show List.Pairwise (fun a b => a < b) (List.map (fun i => i)
      (List.range' min_estimators (max_estimators + 1 - min_estimators)))
    simp only [List.map_id_fun', min_estimators, max_estimators]
    exact List.pairwise_lt_range' 15 161
  · rw [sweepLoop_eq_map]
    intro p hp
    rcases List.mem_map.mp hp with ⟨j, _, rfl⟩
    have hb := oob_score_bounds (rfOOBCorrect tree clf
      (make_classification synthData mcParams entropy) entropy) j
    constructor
    · simp only []
      linarith [hb.2]
    · simp only []
      linarith [hb.1]

/-- Synthetic-data oracle used to instantiate witnesses at a concrete input. -/
def synthData₀ : Nat → Dataset := fun n => n

/-- Tree-library oracle used to instantiate witnesses at a concrete input. -/
def tree₀ : TreeLib := fun _ _ _ _ _ => true

/-- Witness for C9 at the first configuration (`max_features=sqrt`). -/
theorem error_series_shape_witness :
    ("RandomForestClassifier, max_features=sqrt",
        (⟨true, true, some "sqrt", some RANDOM_STATE⟩ : RFConfig))
      ∈ ensemble_clfs ∧
    ∃ series : List (Nat × ℚ),
      ("RandomForestClassifier, max_features=sqrt", series)
        ∈ error_rate synthData₀ tree₀ 0 ∧
      series.length = 161 ∧
      series.map Prod.fst = List.range' 15 161 ∧
      List.Pairwise (fun a b => a < b) (series.map Prod.fst) ∧
      ∀ p ∈ series, 0 ≤ p.2 ∧ p.2 ≤ 1 :=
  ⟨by decide,
    error_series_shape synthData₀ tree₀ 0
      "RandomForestClassifier, max_features=sqrt"
      ⟨true, true, some "sqrt", some RANDOM_STATE⟩ (by decide)⟩

/-- The label-binarization step of the second notebook,
`df['balance'] = [1 if b=='B' else 0 for b in df.balance]`, applied to the raw
rows `(balance, [var1, var2, var3, var4])` read from the CSV. -/
def binarizeBalance (df : List (String × List ℤ)) : List (Nat × List ℤ) :=
  df.map (fun r => (if r.1 = "B" then 1 else 0, r.2))

/-- The majority-class selection `df_majority = df[df.balance==0]`. -/
def df_majority (df : List (Nat × List ℤ)) : List (Nat × List ℤ) :=
  df.filter (fun r => r.1 == 0)

/-- The minority-class selection `df_minority = df[df.balance==1]`. -/
def df_minority (df : List (Nat × List ℤ)) : List (Nat × List ℤ) :=
  df.filter (fun r => r.1 == 1)

/-- The library call `sklearn.utils.resample(rows, replace=True, n_samples=n,
random_state=123)`: draws `n` rows with replacement. `pick` abstracts the
seeded PRNG's draw sequence (a pure function of the fixed seed 123), reduced
modulo the frame's row count. -/
def resample (rows : List (Nat × List ℤ)) (n : Nat) (pick : Nat → Nat) :
    List (Nat × List ℤ) :=
  (List.range n).map (fun k => rows.getD (pick k % rows.length) (0, []))

/-- The upsampling step `df_minority_upsampled = resample(df_minority,
replace=True, n_samples=576, random_state=123)`. -/
def df_minority_upsampled (df : List (Nat × List ℤ)) (pick : Nat → Nat) :
    List (Nat × List ℤ) :=
  resample (df_minority df) 576 pick

/-- The concatenation `df_upsampled = pd.concat([df_majority,
df_minority_upsampled])`. -/
def df_upsampled (df : List (Nat × List ℤ)) (pick : Nat → Nat) :
    List (Nat × List ℤ) :=
  df_majority df ++ df_minority_upsampled df pick

/-- The column drop `X = d.drop('balance', axis=1)`: the feature matrix of a
labelled frame. -/
def featureMatrix (rows : List (Nat × List ℤ)) : List (List ℤ) :=
  rows.map Prod.snd

/-- The column selection `y = d.balance`: the label vector of a labelled
frame. -/
def labelVector (rows : List (Nat × List ℤ)) : List Nat :=
  rows.map Prod.fst

/-- Constructor arguments of the `SVC` built in the second notebook. -/
structure SVCConfig where
  kernel : String
  class_weight : Option String
  probability : Bool
deriving DecidableEq

/-- The call `clf_3 = SVC(kernel='linear', class_weight='balanced',
probability=True)`. -/
def clf_3 : SVCConfig :=
  ⟨"linear", some "balanced", true⟩

/-- The three fits of the second notebook, in program order: each classifier
name paired with the labelled rows its `fit` receives. `clf_1`
(`LogisticRegression`) is fit on `df_upsampled`; `clf_3` (`SVC`) and `clf_4`
(`RandomForestClassifier`) are fit on the full binarized `df`. -/
def notebook2Fits (input : List (String × List ℤ)) (pick : Nat → Nat) :
    List (String × List (Nat × List ℤ)) :=
  [("LogisticRegression", df_upsampled (binarizeBalance input) pick),
   ("SVC", binarizeBalance input),
   ("RandomForestClassifier", binarizeBalance input)]

/-- A two-row input table in the balance-scale CSV format, used as a concrete
refuting input. -/
def input₀ : List (String × List ℤ) :=
  [("B", [1, 1, 1, 1]), ("R", [1, 1, 1, 2])]

/-- A concrete PRNG draw sequence for witnesses and counterexamples. -/
def pick₀ : Nat → Nat := fun _ => 0

/-- Claim C2 counterexample: it is not the case that every classifier of the
second notebook is fit on the resampled dataset. On the concrete input
`input₀`, the SVC's training rows (the full binarized frame, 2 rows) differ
from `df_upsampled` (577 rows). -/
theorem not_every_fit_on_resampled_data :
    ¬ ∀ fit ∈ notebook2Fits input₀ pick₀,
        fit.2 = df_upsampled (binarizeBalance input₀) pick₀ := by
  intro h
  have h2 := h ("SVC", binarizeBalance input₀) (by simp [notebook2Fits])
  have hlen : (binarizeBalance input₀).length =
      (df_upsampled (binarizeBalance input₀) pick₀).length := by
    exact congrArg List.length h2
  rw [df_upsampled, df_minority_upsampled, resample, List.length_append,
    List.length_map, List.length_range] at hlen
  revert hlen
  decide

/-- Claim C2 amended: only the logistic regression (`clf_1`) is fit on the
resampled dataset `df_upsampled`; the SVC (`clf_3`) and the random forest
(`clf_4`) are fit on the original binarized frame, the SVC handling imbalance
via `class_weight='balanced'` instead. The resampling step itself always
produces exactly 576 minority rows, so `df_upsampled` has
`|df_majority| + 576` rows. -/
theorem fits_training_data (input : List (String × List ℤ))
    (pick : Nat → Nat) :
    notebook2Fits input pick =
      [("LogisticRegression", df_upsampled (binarizeBalance input) pick),
       ("SVC", binarizeBalance input),
       ("RandomForestClassifier", binarizeBalance input)] ∧
    (df_minority_upsampled (binarizeBalance input) pick).length = 576 ∧
    (df_upsampled (binarizeBalance input) pick).length =
      (df_majority (binarizeBalance input)).length + 576 ∧
    clf_3.class_weight = some "balanced" := by
  refine ⟨rfl, ?_, ?_, rfl⟩
  · rw [df_minority_upsampled, resample, List.length_map, List.length_range]
  · rw [df_upsampled, df_minority_upsampled, resample, List.length_append,
      List.length_map, List.length_range]

/-- The file read `pd.read_csv('/Users/princessemame/Downloads/balance-scale.data',
names=['balance','var1','var2','var3','var4'])`. The external world either
yields parsed rows or an exception (missing file, malformed rows); `read_csv`
surfaces that outcome unchanged to the script. -/
def read_csv (file : Except String (List (String × List ℤ))) :
    Except String (List (String × List ℤ)) :=
  file

/-- The second notebook as a sequential script in an exception monad: the file
read and each library `fit` can raise, and the notebook authors no handler, so
the first exception aborts every remaining step. `fitLib name rows` abstracts
the library call `clf.fit(X, y)` for the named classifier. -/
def notebook2Script (file : Except String (List (String × List ℤ)))
    (pick : Nat → Nat)
    (fitLib : String → List (Nat × List ℤ) → Except String Unit) :
    Except String Unit := do
  let raw ← read_csv file
  let dfb := binarizeBalance raw
  let dfu := df_upsampled dfb pick
  let _ ← fitLib "LogisticRegression" dfu
  let _ ← fitLib "SVC" dfb
  let _ ← fitLib "RandomForestClassifier" dfb
  pure ()

/-- Sequential execution of a list of fallible statements, as a Python script
runs them: each statement runs only if every previous one returned normally,
and the first exception is the run's outcome. -/
def runSteps : List (Except String Unit) → Except String Unit
  | [] => Except.ok ()
  | s :: rest => do
      let _ ← s
      runSteps rest

/-- The 483 `clf.fit(X, y)` calls of the OOB sweep, in program order: for each
of the three configurations, one fallible fit per swept `n_estimators` value
on the generated dataset. `fitRF clf i data` abstracts the library call. -/
def oobFitSteps (fitRF : RFConfig → Nat → Dataset → Except String Unit)
    (data : Dataset) : List (Except String Unit) :=
  ensemble_clfs.flatMap (fun lc =>
    (List.range' min_estimators (max_estimators + 1 - min_estimators)).map
      (fun i => fitRF lc.2 i data))

/-- The OOB notebook as a sequential script in an exception monad:
`make_classification` (whose outcome is `gen`) and each of the 483 `fit` calls
can raise, and the notebook authors no handler. -/
def notebook1Script (gen : Except String Dataset)
    (fitRF : RFConfig → Nat → Dataset → Except String Unit) :
    Except String Unit := do
  let data ← gen
  runSteps (oobFitSteps fitRF data)

theorem runSteps_first_error (l1 l2 : List (Except String Unit)) (e : String)
    (hok : ∀ s ∈ l1, s = Except.ok ()) :
    runSteps (l1 ++ Except.error e :: l2) = Except.error e := by
  induction l1 with
  | nil => rfl
  | cons s rest ih =>
    have hs : s = Except.ok () := hok s (List.mem_cons_self s rest)
    rw [List.cons_append]
    show Except.bind s _ = _
    rw [hs]
    exact ih (fun t ht => hok t (List.mem_cons_of_mem s ht))

theorem runSteps_all_ok (l : List (Except String Unit))
    (hok : ∀ s ∈ l, s = Except.ok ()) : runSteps l = Except.ok () := by
  induction l with
  | nil => rfl
  | cons s rest ih =>
    have hs : s = Except.ok () := hok s (List.mem_cons_self s rest)
    show Except.bind s _ = _
    rw [hs]
    exact ih (fun t ht => hok t (List.mem_cons_of_mem s ht))

/-- Claim C3: no error handling is authored anywhere in the program. In the
OOB notebook, an exception from `make_classification` or from the first
failing of its 483 sweep fits is the run's outcome, aborting every later step,
and a run all of whose library calls return completes normally; in the second
notebook, an exception from the file read or from any of the three fits
likewise propagates unchanged. On no path is there a retry, recovery or
partial-failure handling step. -/
theorem errors_propagate_uncaught
    (gen : Except String Dataset)
    (fitRF : RFConfig → Nat → Dataset → Except String Unit)
    (file : Except String (List (String × List ℤ))) (pick : Nat → Nat)
    (fitLib : String → List (Nat × List ℤ) → Except String Unit) :
    (∀ e, gen = Except.error e →
      notebook1Script gen fitRF = Except.error e) ∧
    (∀ data e l1 l2, gen = Except.ok data →
      oobFitSteps fitRF data = l1 ++ Except.error e :: l2 →
      (∀ s ∈ l1, s = Except.ok ()) →
      notebook1Script gen fitRF = Except.error e) ∧
    (∀ data, gen = Except.ok data →
      (∀ s ∈ oobFitSteps fitRF data, s = Except.ok ()) →
      notebook1Script gen fitRF = Except.ok ()) ∧
    (∀ e, read_csv file = Except.error e →
      notebook2Script file pick fitLib = Except.error e) ∧
    (∀ rows e, read_csv file = Except.ok rows →
      fitLib "LogisticRegression" (df_upsampled (binarizeBalance rows) pick)
        = Except.error e →
      notebook2Script file pick fitLib = Except.error e) ∧
    (∀ rows e, read_csv file = Except.ok rows →
      fitLib "LogisticRegression" (df_upsampled (binarizeBalance rows) pick)
        = Except.ok () →
      fitLib "SVC" (binarizeBalance rows) = Except.error e →
      notebook2Script file pick fitLib = Except.error e) ∧
    (∀ rows e, read_csv file = Except.ok rows →
      fitLib "LogisticRegression" (df_upsampled (binarizeBalance rows) pick)
        = Except.ok () →
      fitLib "SVC" (binarizeBalance rows) = Except.ok () →
      fitLib "RandomForestClassifier" (binarizeBalance rows)
        = Except.error e →
      notebook2Script file pick fitLib = Except.error e) := by
  refine ⟨?_, ?_, ?_, ?_, ?_, ?_, ?_⟩
  · intro e h
    simp only [notebook1Script] at *
    rw [h]
    rfl
  · intro data e l1 l2 hgen hsteps hok
    simp only [notebook1Script] at *
    rw [hgen]
    show runSteps (oobFitSteps fitRF data) = Except.error e
    rw [hsteps]
    exact runSteps_first_error l1 l2 e hok
  · intro data hgen hok
    simp only [notebook1Script] at *
    rw [hgen]
    show runSteps (oobFitSteps fitRF data) = Except.ok ()
    exact runSteps_all_ok (oobFitSteps fitRF data) hok
  · intro e h
    simp only [notebook2Script, read_csv] at *
    rw [h]
    rfl
  · intro rows e h1 h2
    simp only [notebook2Script, read_csv] at *
    rw [h1]
    show Except.bind (fitLib "LogisticRegression" _) _ = _
    rw [h2]
    rfl
  · intro rows e h1 h2 h3
    simp only [notebook2Script, read_csv] at *
    rw [h1]
    show Except.bind (fitLib "LogisticRegression" _) _ = _
    rw [h2]
    show Except.bind (fitLib "SVC" _) _ = _
    rw [h3]
    rfl
  · intro rows e h1 h2 h3 h4
    simp only [notebook2Script, read_csv] at *
    rw [h1]
    show Except.bind (fitLib "LogisticRegression" _) _ = _
    rw [h2]
    show Except.bind (fitLib "SVC" _) _ = _
    rw [h3]
    show Except.bind (fitLib "RandomForestClassifier" _) _ = _
    rw [h4]
    rfl

/-- Library-fit oracle that always succeeds, for witness instantiation. -/
def fitLib₀ : String → List (Nat × List ℤ) → Except String Unit :=
  fun _ _ => Except.ok ()

/-- Forest-fit oracle that always succeeds, for witness instantiation. -/
def fitRF₀ : RFConfig → Nat → Dataset → Except String Unit :=
  fun _ _ _ => Except.ok ()

/-- Witness for C3: an OOB run whose data generation raises `MemoryError` ends
with exactly that error, and a second-notebook run whose file read raises
`FileNotFoundError` ends with exactly that error. -/
theorem errors_propagate_uncaught_witness :
    notebook1Script (Except.error "MemoryError") fitRF₀ =
      Except.error "MemoryError" ∧
    read_csv (Except.error "FileNotFoundError") =
      Except.error "FileNotFoundError" ∧
    notebook2Script (Except.error "FileNotFoundError") pick₀ fitLib₀ =
      Except.error "FileNotFoundError" :=
  ⟨(errors_propagate_uncaught (Except.error "MemoryError") fitRF₀
      (Except.error "FileNotFoundError") pick₀ fitLib₀).1 "MemoryError" rfl,
    rfl,
    (errors_propagate_uncaught (Except.error "MemoryError") fitRF₀
      (Except.error "FileNotFoundError") pick₀ fitLib₀).2.2.2.1
      "FileNotFoundError" rfl⟩

/-- Externally visible events of a notebook run: reading the input file,
synthesizing data in memory, constructing / fitting / predicting with a named
classifier, rendering a computed metric (print or plot), writing to a
persistent location, and reading from the network. -/
inductive Event where
  | readFile : Event
  | synthesize : Event
  | createClf : String → Event
  | fitClf : String → Event
  | predictClf : String → Event
  | renderMetric : Event
  | persist : Event
  | networkRead : Event
deriving DecidableEq

/-- Event trace of the OOB notebook: one synthetic data generation
(`make_classification`), three classifier constructions (the `ensemble_clfs`
literal), then for each classifier one `clf.fit(X, y)` per swept
`n_estimators` value, then the rendered plot. -/
def notebook1Trace : List Event :=
  Event.synthesize ::
    (ensemble_clfs.map (fun lc => Event.createClf lc.1) ++
     ensemble_clfs.flatMap (fun lc =>
       (List.range' min_estimators (max_estimators + 1 - min_estimators)).map
         (fun _ => Event.fitClf lc.1)) ++
     [Event.renderMetric])

/-- Event trace of the second notebook: the CSV read, then for each of the
three classifiers its construction, single fit, predictions and printed
metrics (`np.unique`, accuracy, and for the SVC and forest also AUROC). -/
def notebook2Trace : List Event :=
  [Event.readFile,
   Event.createClf "LogisticRegression", Event.fitClf "LogisticRegression",
   Event.predictClf "LogisticRegression", Event.renderMetric,
   Event.renderMetric,
   Event.createClf "SVC", Event.fitClf "SVC", Event.predictClf "SVC",
   Event.renderMetric, Event.renderMetric, Event.predictClf "SVC",
   Event.renderMetric,
   Event.createClf "RandomForestClassifier",
   Event.fitClf "RandomForestClassifier",
   Event.predictClf "RandomForestClassifier", Event.renderMetric,
   Event.renderMetric, Event.predictClf "RandomForestClassifier",
   Event.renderMetric]

theorem notebook1Trace_eq :
    notebook1Trace =
      Event.synthesize ::
        Event.createClf "RandomForestClassifier, max_features=sqrt" ::
        Event.createClf "RandomForestClassifier, max_features=log2" ::
        Event.createClf "RandomForestClassifier, max_features=None" ::
        (List.replicate 161
            (Event.fitClf "RandomForestClassifier, max_features=sqrt") ++
          (List.replicate 161
              (Event.fitClf "RandomForestClassifier, max_features=log2") ++
            (List.replicate 161
                (Event.fitClf "RandomForestClassifier, max_features=None") ++
              [Event.renderMetric]))) := by
  simp only [notebook1Trace, ensemble_clfs, min_estimators, max_estimators,
    List.map_cons, List.map_nil, List.flatMap_cons, List.flatMap_nil,
    List.map_const', List.length_range', List.append_nil, List.cons_append,
    List.nil_append, List.append_assoc]

/-- Claim C4: per run, the dataset is loaded or generated exactly once, every
fit classifier was constructed in that same run with nothing persisted, and
metrics are only rendered, never stored. -/
theorem run_lifecycle :
    notebook1Trace.count Event.synthesize +
      notebook1Trace.count Event.readFile = 1 ∧
    notebook2Trace.count Event.synthesize +
      notebook2Trace.count Event.readFile = 1 ∧
    Event.persist ∉ notebook1Trace ∧
    Event.persist ∉ notebook2Trace ∧
    (∀ n, Event.fitClf n ∈ notebook1Trace →
      Event.createClf n ∈ notebook1Trace) ∧
    (∀ n, Event.fitClf n ∈ notebook2Trace →
      Event.createClf n ∈ notebook2Trace) := by
  refine ⟨?_, by decide, ?_, by decide, ?_, ?_⟩
  · rw [notebook1Trace_eq]
    simp only [List.count_cons, List.count_append, List.count_replicate,
      List.count_nil, List.count_singleton]
    decide
  · rw [notebook1Trace_eq]
    simp only [List.mem_cons, List.mem_append, List.mem_replicate,
      List.mem_singleton]
    decide
  · intro n h
    rw [notebook1Trace_eq] at h ⊢
    simp only [List.mem_cons, List.mem_append, List.mem_replicate,
      List.mem_singleton] at h ⊢
    rcases h with h | h | h | h | h | h | h <;> simp_all
  · intro n h
    simp only [notebook2Trace, List.mem_cons, List.mem_singleton] at h ⊢
    rcases h with h | h | h <;> simp_all

/-- Claim C5 counterexample: in the OOB notebook a classifier is not fit once:
each of the three forests is refit 161 times (the `warm_start` sweep refits at
every `n_estimators` value from 15 to 175). -/
theorem oob_classifier_not_fit_once :
    notebook1Trace.count
      (Event.fitClf "RandomForestClassifier, max_features=sqrt") = 161 ∧
    notebook1Trace.count
      (Event.fitClf "RandomForestClassifier, max_features=sqrt") ≠ 1 := by
  rw [notebook1Trace_eq]
  simp only [List.count_cons, List.count_append, List.count_replicate,
    List.count_nil, List.count_singleton]
  decide

/-- Claim C5 amended: each classifier object lives within a single run and no
classifier state persists across runs, but the OOB notebook's three forests
are each fit 161 times (incremental `warm_start` refits), one fit per swept
ensemble size; only the second notebook's classifiers are fit exactly once
before being used for prediction. -/
theorem classifier_fit_cycles :
    notebook1Trace.count
      (Event.fitClf "RandomForestClassifier, max_features=sqrt") = 161 ∧
    notebook1Trace.count
      (Event.fitClf "RandomForestClassifier, max_features=log2") = 161 ∧
    notebook1Trace.count
      (Event.fitClf "RandomForestClassifier, max_features=None") = 161 ∧
    notebook2Trace.count (Event.fitClf "LogisticRegression") = 1 ∧
    notebook2Trace.count (Event.fitClf "SVC") = 1 ∧
    notebook2Trace.count (Event.fitClf "RandomForestClassifier") = 1 ∧
    Event.persist ∉ notebook1Trace ∧
    Event.persist ∉ notebook2Trace := by
  refine ⟨?_, ?_, ?_, by decide, by decide, by decide, ?_, by decide⟩
  · rw [notebook1Trace_eq]
    simp only [List.count_cons, List.count_append, List.count_replicate,
      List.count_nil, List.count_singleton]
    decide
  · rw [notebook1Trace_eq]
    simp only [List.count_cons, List.count_append, List.count_replicate,
      List.count_nil, List.count_singleton]
    decide
  · rw [notebook1Trace_eq]
    simp only [List.count_cons, List.count_append, List.count_replicate,
      List.count_nil, List.count_singleton]
    decide
  · rw [notebook1Trace_eq]
    simp only [List.mem_cons, List.mem_append, List.mem_replicate,
      List.mem_singleton]
    decide

/-- Claim C7 counterexample: not every script run reads an input file. The OOB
notebook's run contains no file read at all, yet it configures and fits
estimators (its dataset is synthesized in memory). -/
theorem oob_run_reads_no_file :
    Event.readFile ∉ notebook1Trace ∧
    Event.fitClf "RandomForestClassifier, max_features=sqrt"
      ∈ notebook1Trace := by
  rw [notebook1Trace_eq]
  simp only [List.mem_cons, List.mem_append, List.mem_replicate,
    List.mem_singleton]
  decide

/-- Claim C7 amended: the program's only external input is the flat CSV read
by the second notebook, whose run reads it as its first event, before any
estimator is constructed or fit; the OOB notebook consumes no external input,
synthesizing its dataset in memory exactly once; neither run consumes network
input or persisted state. -/
theorem external_input_boundary :
    notebook2Trace.head? = some Event.readFile ∧
    notebook2Trace.count Event.readFile = 1 ∧
    Event.networkRead ∉ notebook1Trace ∧
    Event.networkRead ∉ notebook2Trace ∧
    Event.readFile ∉ notebook1Trace ∧
    notebook1Trace.count Event.synthesize = 1 ∧
    Event.synthesize ∉ notebook2Trace := by
  refine ⟨rfl, by decide, ?_, by decide, ?_, ?_, by decide⟩
  · rw [notebook1Trace_eq]
    simp only [List.mem_cons, List.mem_append, List.mem_replicate,
      List.mem_singleton]
    decide
  · rw [notebook1Trace_eq]
    simp only [List.mem_cons, List.mem_append, List.mem_replicate,
      List.mem_singleton]
    decide
  · rw [notebook1Trace_eq]
    simp only [List.count_cons, List.count_append, List.count_replicate,
      List.count_nil, List.count_singleton]
    decide

/-- A labelled frame is rectangular when all its feature rows have equal
width. -/
def rectangular {α : Type} (rows : List (α × List ℤ)) : Prop :=
  ∀ r ∈ rows, ∀ s ∈ rows, r.2.length = s.2.length

instance {α : Type} (rows : List (α × List ℤ)) : Decidable (rectangular rows) := by
  unfold rectangular
  infer_instance

/-- Well-formedness of the data handed to a `fit` call: rectangular features
and a label vector whose length equals the feature matrix's row count. -/
def wellFormed (rows : List (Nat × List ℤ)) : Prop :=
  rectangular rows ∧ (labelVector rows).length = (featureMatrix rows).length

instance (rows : List (Nat × List ℤ)) : Decidable (wellFormed rows) := by
  unfold wellFormed
  infer_instance

theorem rectangular_of_subset {α : Type} {l m : List (α × List ℤ)}
    (hsub : ∀ r ∈ l, r ∈ m) (h : rectangular m) : rectangular l :=
  fun r hr s hs => h r (hsub r hr) s (hsub s hs)

theorem rectangular_binarize {input : List (String × List ℤ)}
    (h : rectangular input) : rectangular (binarizeBalance input) := by
  intro r hr s hs
  obtain ⟨r0, hr0, hr0e⟩ := List.mem_map.mp hr
  obtain ⟨s0, hs0, hs0e⟩ := List.mem_map.mp hs
  subst hr0e
  subst hs0e
  exact h r0 hr0 s0 hs0

theorem mem_of_mem_minority_upsampled {df : List (Nat × List ℤ)}
    {pick : Nat → Nat} (hmin : df_minority df ≠ []) {r : Nat × List ℤ}
    (h : r ∈ df_minority_upsampled df pick) : r ∈ df_minority df := by
  obtain ⟨k, _, hr⟩ := List.mem_map.mp h
  have hlen : 0 < (df_minority df).length := List.length_pos.mpr hmin
  have hmod : pick k % (df_minority df).length < (df_minority df).length :=
    Nat.mod_lt _ hlen
  rw [← hr, List.getD_eq_getElem _ _ hmod]
  exact List.getElem_mem hmod

theorem mem_of_mem_df_upsampled {df : List (Nat × List ℤ)} {pick : Nat → Nat}
    (hmin : df_minority df ≠ []) {r : Nat × List ℤ}
    (h : r ∈ df_upsampled df pick) : r ∈ df := by
  rcases List.mem_append.mp h with h | h
  · exact List.mem_of_mem_filter h
  · exact List.mem_of_mem_filter (mem_of_mem_minority_upsampled hmin h)

/-- Claim C6: every frame handed to a `fit` of the second notebook is a
well-formed feature matrix, and well-formedness is preserved by each
transformation the notebook applies: binarization, class filtering,
resampling, concatenation and the label-column drop. -/
theorem transformations_preserve_well_formedness
    (input : List (String × List ℤ)) (pick : Nat → Nat)
    (hrect : rectangular input)
    (hmin : df_minority (binarizeBalance input) ≠ []) :
    wellFormed (binarizeBalance input) ∧
    wellFormed (df_majority (binarizeBalance input)) ∧
    wellFormed (df_minority (binarizeBalance input)) ∧
    wellFormed (df_minority_upsampled (binarizeBalance input) pick) ∧
    wellFormed (df_upsampled (binarizeBalance input) pick) ∧
    ∀ fit ∈ notebook2Fits input pick, wellFormed fit.2 := by
  have hB := rectangular_binarize hrect
  have hlen : ∀ rows : List (Nat × List ℤ),
      (labelVector rows).length = (featureMatrix rows).length := by
    intro rows
    simp [labelVector, featureMatrix]
  have hWB : wellFormed (binarizeBalance input) := ⟨hB, hlen _⟩
  have hWmaj : wellFormed (df_majority (binarizeBalance input)) :=
    ⟨rectangular_of_subset (fun r hr => List.mem_of_mem_filter hr) hB, hlen _⟩
  have hWmin : wellFormed (df_minority (binarizeBalance input)) :=
    ⟨rectangular_of_subset (fun r hr => List.mem_of_mem_filter hr) hB, hlen _⟩
  have hWup : wellFormed (df_minority_upsampled (binarizeBalance input) pick) :=
    ⟨rectangular_of_subset
      (fun r hr => List.mem_of_mem_filter (mem_of_mem_minority_upsampled hmin hr))
      hB, hlen _⟩
  have hWcat : wellFormed (df_upsampled (binarizeBalance input) pick) :=
    ⟨rectangular_of_subset (fun r hr => mem_of_mem_df_upsampled hmin hr) hB,
      hlen _⟩
  refine ⟨hWB, hWmaj, hWmin, hWup, hWcat, ?_⟩
  intro fit hfit
  simp only [notebook2Fits, List.mem_cons, List.mem_singleton,
    List.not_mem_nil, or_false] at hfit
  rcases hfit with h | h | h
  · rw [h]
    exact hWcat
  · rw [h]
    exact hWB
  · rw [h]
    exact hWB

/-- A three-row input table in the balance-scale CSV format with both classes
present, used to instantiate the C6 witness. -/
def input₁ : List (String × List ℤ) :=
  [("B", [1, 1, 1, 1]), ("R", [1, 1, 1, 2]), ("L", [2, 1, 1, 1])]

/-- Witness for C6 at the concrete input `input₁`. -/
theorem transformations_preserve_well_formedness_witness :
    rectangular input₁ ∧
    df_minority (binarizeBalance input₁) ≠ [] ∧
    (wellFormed (binarizeBalance input₁) ∧
     wellFormed (df_majority (binarizeBalance input₁)) ∧
     wellFormed (df_minority (binarizeBalance input₁)) ∧
     wellFormed (df_minority_upsampled (binarizeBalance input₁) pick₀) ∧
     wellFormed (df_upsampled (binarizeBalance input₁) pick₀) ∧
     ∀ fit ∈ notebook2Fits input₁ pick₀, wellFormed fit.2) :=
  ⟨by decide, by decide,
    transformations_preserve_well_formedness input₁ pick₀ (by decide)
      (by decide)⟩

/-- Claim C10: after binarization and resampling, whenever the input table has
576 non-'B' rows (the majority-class count of the balance-scale data) and a
nonempty minority, `df_upsampled` holds exactly 576 rows of label 1 and 576
rows of label 0 — the minority is drawn with replacement to exactly
`n_samples=576` — and every row's label is 0 or 1. -/
theorem upsampled_class_balance (input : List (String × List ℤ))
    (pick : Nat → Nat)
    (hmaj : (df_majority (binarizeBalance input)).length = 576)
    (hmin : df_minority (binarizeBalance input) ≠ []) :
    (df_upsampled (binarizeBalance input) pick).countP
      (fun r => r.1 == 1) = 576 ∧
    (df_upsampled (binarizeBalance input) pick).countP
      (fun r => r.1 == 0) = 576 ∧
    (df_minority_upsampled (binarizeBalance input) pick).length = 576 ∧
    ∀ r ∈ df_upsampled (binarizeBalance input) pick, r.1 = 0 ∨ r.1 = 1 := by
  have hup_len :
      (df_minority_upsampled (binarizeBalance input) pick).length = 576 := by
    rw [df_minority_upsampled, resample, List.length_map, List.length_range]
  have hup1 :
      ∀ r ∈ df_minority_upsampled (binarizeBalance input) pick, r.1 = 1 := by
    intro r hr
    have hmem := mem_of_mem_minority_upsampled hmin hr
    have hf := List.mem_filter.mp hmem
    simpa using hf.2
  have hmaj0 : ∀ r ∈ df_majority (binarizeBalance input), r.1 = 0 := by
    intro r hr
    have hf := List.mem_filter.mp hr
    simpa using hf.2
  refine ⟨?_, ?_, hup_len, ?_⟩
  · rw [df_upsampled, List.countP_append]
    have c1 : (df_majority (binarizeBalance input)).countP
        (fun r => r.1 == 1) = 0 :=
      List.countP_eq_zero.mpr (fun r hr => by simp [hmaj0 r hr])
    have c2 : (df_minority_upsampled (binarizeBalance input) pick).countP
        (fun r => r.1 == 1) =
        (df_minority_upsampled (binarizeBalance input) pick).length :=
      List.countP_eq_length.mpr (fun r hr => by simp [hup1 r hr])
    rw [c1, c2, hup_len]
  · rw [df_upsampled, List.countP_append]
    have c1 : (df_majority (binarizeBalance input)).countP
        (fun r => r.1 == 0) =
        (df_majority (binarizeBalance input)).length :=
      List.countP_eq_length.mpr (fun r hr => by simp [hmaj0 r hr])
    have c2 : (df_minority_upsampled (binarizeBalance input) pick).countP
        (fun r => r.1 == 0) = 0 :=
      List.countP_eq_zero.mpr (fun r hr => by simp [hup1 r hr])
    rw [c1, c2, hmaj]
  · intro r hr
    rcases List.mem_append.mp hr with h | h
    · exact Or.inl (hmaj0 r h)
    · exact Or.inr (hup1 r h)

/-- An input table with the balance-scale class layout: 576 majority rows
(label `R`, binarized to 0) and 49 minority rows (label `B`, binarized to 1),
matching the real dataset's 625 rows and class counts. -/
def input₂ : List (String × List ℤ) :=
  List.replicate 576 ("R", [1, 1, 1, 1]) ++ List.replicate 49 ("B", [1, 1, 1, 1])

theorem binarize_input₂ :
    binarizeBalance input₂ =
      List.replicate 576 ((0 : Nat), [(1 : ℤ), 1, 1, 1]) ++
        List.replicate 49 ((1 : Nat), [(1 : ℤ), 1, 1, 1]) := by
  rw [binarizeBalance, input₂, List.map_append, List.map_replicate,
    List.map_replicate]
  rfl

theorem majority_input₂ :
    (df_majority (binarizeBalance input₂)).length = 576 := by
  rw [binarize_input₂, df_majority, List.filter_append, List.filter_replicate,
    List.filter_replicate, if_pos (by decide), if_neg (by decide),
    List.append_nil, List.length_replicate]

theorem minority_input₂ :
    df_minority (binarizeBalance input₂) ≠ [] := by
  rw [binarize_input₂, df_minority, List.filter_append, List.filter_replicate,
    List.filter_replicate, if_neg (by decide), if_pos (by decide),
    List.nil_append]
  intro h
  have hl := congrArg List.length h
  rw [List.length_replicate, List.length_nil] at hl
  exact absurd hl (by decide)

/-- Witness for C10 at the concrete input `input₂`. -/
theorem upsampled_class_balance_witness :
    (df_majority (binarizeBalance input₂)).length = 576 ∧
    df_minority (binarizeBalance input₂) ≠ [] ∧
    ((df_upsampled (binarizeBalance input₂) pick₀).countP
        (fun r => r.1 == 1) = 576 ∧
      (df_upsampled (binarizeBalance input₂) pick₀).countP
        (fun r => r.1 == 0) = 576 ∧
      (df_minority_upsampled (binarizeBalance input₂) pick₀).length = 576 ∧
      ∀ r ∈ df_upsampled (binarizeBalance input₂) pick₀,
        r.1 = 0 ∨ r.1 = 1) :=
  ⟨majority_input₂, minority_input₂,
    upsampled_class_balance input₂ pick₀ majority_input₂ minority_input₂⟩

/-- Witness for C4: the first forest is fit during the OOB run and was created
in that same run. -/
theorem run_lifecycle_witness :
    Event.fitClf "RandomForestClassifier, max_features=sqrt"
      ∈ notebook1Trace ∧
    Event.createClf "RandomForestClassifier, max_features=sqrt"
      ∈ notebook1Trace :=
  ⟨by decide,
    run_lifecycle.2.2.2.2.1 "RandomForestClassifier, max_features=sqrt"
      (by decide)⟩
